import Mathlib

/-!
# Verification of `inspirehep/modules/workflows/tasks/upload.py`

Shallow embedding of the record-upload workflow tasks of inspire-next:
`store_record`, `store_record_inspirehep_api`, `send_record_to_hep`,
`create_error`, `store_root`, `_is_stale_data` / `is_stale_data`.

Modelling conventions:
* Python dict values that may be `None` are `Option` values; `none` models
  Python `None` (and, for `.get` accesses, a missing key).
* Python truthiness of an optional integer (`if control_number:`,
  `if head_version_id:`) is `truthyInt`: `none` and `0` are falsy.
* The HTTP layer (`put_record_to_hep` / `post_record_to_hep`) is an oracle
  function from the issued request to either a successful response body or
  an error response (`requests.exceptions.HTTPError` carrying `.response`).
* Mutation of the workflow object is explicit state passing: every operation
  returns the resulting workflow object, together with the list of HTTP
  requests it issued and the list of database store effects it performed
  (`record.commit()` / `obj.save()`).  On a raised exception the returned
  object is the object as it was at the raise point.
* The `backoff.on_exception(backoff.expo, (BadGatewayError,), base=4,
  max_tries=5)` decorator is modelled as an explicit retry loop over an
  attempt-indexed network oracle, counting attempts.  The jittered sleep
  durations are real-time behaviour and are not modelled; the retried
  exception set and the attempt budget are.
* `@with_debug_logging` and `obj.log.*` only emit log lines and are dropped.
-/

namespace Upload

/-- Truthiness of a Python optional integer: `None` and `0` are falsy. -/
def truthyInt : Option Int → Bool
  | none => false
  | some v => v != 0

/-- An error HTTP response (`err.response` of a `requests` `HTTPError`):
status code, decoded JSON body when the body parses (`response.json()`),
raw text otherwise. -/
structure HttpResponse where
  status_code : Nat
  body_json : Option String
  text : String
deriving DecidableEq, Repr

/-- The successful response body of the inspirehep record API: the code
reads `response['metadata']['control_number']` and (on create)
`response['uuid']`. -/
structure HepResponse where
  control_number : Int
  uuid : String
deriving DecidableEq, Repr

/-- The candidate record payload `obj.data`.  `control_number` is the only
field the upload tasks read or write; the remaining JSON fields are kept
opaque.  `control_number = none` models the key being absent. -/
structure Payload where
  control_number : Option Int
  fields : List (String × String)
deriving DecidableEq, Repr

/-- The workflow's `obj.extra_data` bookkeeping map, restricted to the keys
the upload tasks touch.  `is_update` is the truthiness of
`extra_data.get('is-update')`. -/
structure ExtraData where
  is_update : Bool
  recid : Option Int
  head_uuid : Option String
  head_version_id : Option Int
  merger_root : Option String
deriving DecidableEq, Repr

/-- The in-flight workflow object: payload plus extra data. -/
structure WorkflowObj where
  data : Payload
  extra_data : ExtraData
deriving DecidableEq, Repr

/-- A persisted canonical record as seen through `InspireRecord`:
its UUID (`record.id`), its JSON content (subscript access such as
`record['control_number']` reads it) and its `model.version_id`. -/
structure InspireRec where
  id : String
  json : Payload
  version_id : Int
deriving DecidableEq, Repr

/-- Oracle for the local record store: `InspireRecord.get_record` (the
argument is the looked-up uuid, `none` modelling a `None` key) and
`InspireRecord.create` (the store mints the identity and control number). -/
structure RecordDb where
  get_record : Option String → InspireRec
  create : Payload → InspireRec

/-- The two feature toggles read by the upload tasks. -/
structure Config where
  feature_flag_enable_rest_record_management : Bool
  feature_flag_enable_merger : Bool
deriving DecidableEq, Repr

/-- Exceptions raised by the upload tasks:
`BadGatewayError`, `WorkflowsError` (with the formatted status code and
message), `ValueError`, and Python `KeyError` on a missing mandatory key. -/
inductive UploadError where
  | badGateway
  | workflows (code : Nat) (message : String)
  | valueError (message : String)
  | keyError (key : String)
deriving DecidableEq, Repr

/-- A request issued to the inspirehep record API: `isPut = true` for
`put_record_to_hep` (replace), `false` for `post_record_to_hep` (create). -/
structure HepRequest where
  isPut : Bool
  pid_type : String
  control_number : Option Int
  data : Payload
  headers : List (String × String)
deriving DecidableEq, Repr

/-- A database store effect performed by a task: committing a canonical
record (`record.commit()`) or saving the workflow object (`obj.save()`). -/
inductive StoreEffect where
  | commitRecord (r : InspireRec)
  | saveWorkflow (o : WorkflowObj)
deriving DecidableEq, Repr

/-- Outcome of a task invocation: the raised exception (if any), the
workflow object after the call, the HTTP requests issued and the store
effects performed. -/
structure StepOutcome where
  res : Except UploadError Unit
  obj : WorkflowObj
  reqs : List HepRequest
  effects : List StoreEffect
deriving Repr

/-- The message `create_error` puts into the raised `WorkflowsError`:
`response.json()` when the body decodes, `response.text` otherwise. -/
def errorMessage (response : HttpResponse) : String :=
  match response.body_json with
  | some decoded => decoded
  | none => response.text

/-- `create_error` (upload.py lines 138-151): an HTTP 502 becomes
`BadGatewayError`; every other status becomes a `WorkflowsError` carrying
the status code and the decoded body. -/
def create_error (response : HttpResponse) : UploadError :=
  if response.status_code = 502 then
    UploadError.badGateway
  else
    UploadError.workflows response.status_code
      ("Error from inspirehep [" ++ toString response.status_code ++ "]: "
        ++ errorMessage response)

/-- The request `send_record_to_hep` issues (upload.py lines 111-124):
a PUT to the record's endpoint when `control_number` is truthy — carrying
`If-Match: "<head_version_id - 1>"` exactly when `head_version_id` is
truthy — and a POST otherwise. -/
def sendRequest (obj : WorkflowObj) (pid_type : String)
    (control_number : Option Int) : HepRequest :=
  if truthyInt control_number then
    { isPut := true
      pid_type := pid_type
      control_number := control_number
      data := obj.data
      headers :=
        if truthyInt obj.extra_data.head_version_id then
          [("If-Match",
            "\"" ++ toString (obj.extra_data.head_version_id.getD 0 - 1) ++ "\"")]
        else [] }
  else
    { isPut := false
      pid_type := pid_type
      control_number := none
      data := obj.data
      headers := [] }

/-- `send_record_to_hep` (upload.py lines 109-135).  The network oracle
`net` answers the issued request.  On an `HTTPError` the translated error
is raised and the object is untouched (the stamping lines sit after the
re-raise).  On success the returned `control_number` is stamped onto both
`obj.data['control_number']` and `obj.extra_data['recid']`; when the call
was a create (`control_number` falsy) `obj.extra_data['head_uuid']` is set
to the returned uuid; finally `obj.save()` runs in a nested transaction. -/
def send_record_to_hep (net : HepRequest → Except HttpResponse HepResponse)
    (obj : WorkflowObj) (pid_type : String) (control_number : Option Int) :
    StepOutcome :=
  let req := sendRequest obj pid_type control_number
  match net req with
  | Except.error response =>
      { res := Except.error (create_error response)
        obj := obj
        reqs := [req]
        effects := [] }
  | Except.ok response =>
      let stamped : WorkflowObj :=
        { data := { obj.data with control_number := some response.control_number }
          extra_data :=
            { obj.extra_data with
                recid := some response.control_number
                head_uuid :=
                  if truthyInt control_number then obj.extra_data.head_uuid
                  else some response.uuid } }
      { res := Except.ok ()
        obj := stamped
        reqs := [req]
        effects := [StoreEffect.saveWorkflow stamped] }

/-- One (un-retried) invocation of `store_record_inspirehep_api`
(upload.py lines 89-106): on an update, skip with a log line when the
merger feature flag is disabled for a non-author record, raise
`ValueError` when the payload has no `control_number`; then dispatch to
`send_record_to_hep` with `obj.data.get('control_number')`. -/
def store_record_inspirehep_api_once (cfg : Config)
    (net : HepRequest → Except HttpResponse HepResponse)
    (obj : WorkflowObj) (is_update is_authors : Bool) : StepOutcome :=
  let pid_type := if is_authors then "aut" else "lit"
  if is_update &&
      !is_authors && !cfg.feature_flag_enable_merger then
    { res := Except.ok (), obj := obj, reqs := [], effects := [] }
  else if is_update && obj.data.control_number = none then
    { res := Except.error (UploadError.valueError "Control number is missing")
      obj := obj
      reqs := []
      effects := [] }
  else
    send_record_to_hep net obj pid_type obj.data.control_number

/-- The exception set retried by the backoff decorator on
`store_record_inspirehep_api`: `(BadGatewayError, )` alone. -/
def retriedError : UploadError → Bool
  | UploadError.badGateway => true
  | _ => false

/-- The attempt budget of `backoff.on_exception(..., max_tries=5)`:
at most five invocations in total. -/
def backoffMaxTries : Nat := 5

/-- The base of the exponential backoff generator `backoff.expo` with
`base=4`: the delay before the n-th retry is drawn from `4 ^ n`. -/
def backoffBase : Nat := 4

/-- The semantics of `backoff.on_exception(backoff.expo, (BadGatewayError,),
base=4, max_tries=5)`: run the attempt; re-raise immediately on any
exception other than `BadGatewayError`; on `BadGatewayError` retry while
the attempt budget is not exhausted.  `run i` is the outcome of attempt
`i` (0-indexed); the returned number is the total count of attempts made. -/
def backoffRetry (run : Nat → StepOutcome) :
    Nat → Nat → StepOutcome × Nat
  | i, 0 => (run i, i + 1)
  | i, remaining + 1 =>
      match (run i).res with
      | Except.ok _ => (run i, i + 1)
      | Except.error e =>
          if retriedError e && remaining != 0 then
            backoffRetry run (i + 1) remaining
          else
            (run i, i + 1)

/-- `store_record_inspirehep_api` as invoked: the single-attempt body
wrapped in the backoff retry policy.  `netSeq i` is the network behaviour
seen by attempt `i`. -/
def store_record_inspirehep_api (cfg : Config)
    (netSeq : Nat → HepRequest → Except HttpResponse HepResponse)
    (obj : WorkflowObj) (is_update is_authors : Bool) : StepOutcome × Nat :=
  backoffRetry
    (fun i => store_record_inspirehep_api_once cfg (netSeq i) obj is_update is_authors)
    0 backoffMaxTries

/-- `store_record` (upload.py lines 49-84).  With the REST flag off,
strategy A runs in one nested transaction: the update branch skips (log
only) when the merger flag is disabled for non-author records, otherwise
loads the head record, transplants its control number onto payload and
`recid`, replaces the record's content with the payload and commits; the
create branch creates the record, stamps `control_number`/`recid`/
`head_uuid` and commits.  With the REST flag on it delegates to
`store_record_inspirehep_api`. -/
def store_record (cfg : Config) (db : RecordDb)
    (netSeq : Nat → HepRequest → Except HttpResponse HepResponse)
    (obj : WorkflowObj) (workflow_data_type : String) : StepOutcome :=
  let is_update := obj.extra_data.is_update
  let is_authors := workflow_data_type == "authors"
  if !cfg.feature_flag_enable_rest_record_management then
    if is_update then
      if !is_authors && !cfg.feature_flag_enable_merger then
        { res := Except.ok (), obj := obj, reqs := [], effects := [] }
      else
        match obj.extra_data.head_uuid with
        | none =>
            { res := Except.error (UploadError.keyError "head_uuid")
              obj := obj, reqs := [], effects := [] }
        | some huuid =>
            let record := db.get_record (some huuid)
            match record.json.control_number with
            | none =>
                { res := Except.error (UploadError.keyError "control_number")
                  obj := obj, reqs := [], effects := [] }
            | some cn =>
                let obj' : WorkflowObj :=
                  { data := { obj.data with control_number := some cn }
                    extra_data := { obj.extra_data with recid := some cn } }
                let record' : InspireRec := { record with json := obj'.data }
                { res := Except.ok ()
                  obj := obj'
                  reqs := []
                  effects := [StoreEffect.commitRecord record',
                              StoreEffect.saveWorkflow obj'] }
    else
      let record := db.create obj.data
      match record.json.control_number with
      | none =>
          { res := Except.error (UploadError.keyError "control_number")
            obj := obj, reqs := [], effects := [] }
      | some cn =>
          let obj' : WorkflowObj :=
            { data := { obj.data with control_number := some cn }
              extra_data :=
                { obj.extra_data with
                    recid := some cn
                    head_uuid := some record.id } }
          { res := Except.ok ()
            obj := obj'
            reqs := []
            effects := [StoreEffect.commitRecord record,
                        StoreEffect.saveWorkflow obj'] }
  else
    (store_record_inspirehep_api cfg netSeq obj is_update is_authors).1

/-- `_is_stale_data` (upload.py lines 203-221): false when the workflow is
not an update or `head_version_id` is `None`; otherwise true exactly when
the loaded head record's `model.version_id` differs from
`head_version_id`. -/
def is_stale_data_impl (get_record : Option String → InspireRec)
    (w : WorkflowObj) : Bool :=
  let is_update := w.extra_data.is_update
  match w.extra_data.head_version_id with
  | none => false
  | some head_version_id =>
      if !is_update then false
      else
        let record := get_record w.extra_data.head_uuid
        record.version_id != head_version_id

/-- `is_stale_data` (upload.py lines 224-227) simply forwards to
`_is_stale_data`. -/
def is_stale_data (get_record : Option String → InspireRec)
    (obj : WorkflowObj) : Bool :=
  is_stale_data_impl get_record obj

/-- A `WorkflowsRecordSources` row: the per-(record, source) snapshot of
the as-submitted JSON. -/
structure WorkflowsRecordSources where
  source : String
  record_uuid : String
  json : String
deriving DecidableEq, Repr

/-- Two snapshot rows share a key when they agree on `(record_uuid, source)`. -/
def sameSnapshotKey (a b : WorkflowsRecordSources) : Bool :=
  a.record_uuid = b.record_uuid && a.source = b.source

/-- Modelled from the spec: the `WorkflowsRecordSources` table schema and
`db.session.merge` are not under src/ (only `store_root` is); per the spec
the table is a logical table keyed by `(recordUuid, source)` and the merge
is an upsert on that key — insert if absent, overwrite the JSON if
present. -/
def sessionMerge (row : WorkflowsRecordSources)
    (table : List WorkflowsRecordSources) : List WorkflowsRecordSources :=
  row :: table.filter (fun r => !sameSnapshotKey r row)

/-- `store_root` (upload.py lines 155-177): skip when the merger flag is
disabled; read `merger_root` and `head_uuid` from extra data (subscript
access, so a missing key raises `KeyError`); resolve the root's lowercased
source label through `get_source_for_root` (`sourceOf` composes the
`LiteratureReader(root).source.lower()` extraction); return unchanged when
the source is empty; otherwise merge-upsert the row and commit. -/
def store_root (cfg : Config) (sourceOf : String → String)
    (get_source_for_root : String → String)
    (table : List WorkflowsRecordSources) (obj : WorkflowObj) :
    Except UploadError (List WorkflowsRecordSources) :=
  if !cfg.feature_flag_enable_merger then
    Except.ok table
  else
    match obj.extra_data.merger_root with
    | none => Except.error (UploadError.keyError "merger_root")
    | some root =>
        match obj.extra_data.head_uuid with
        | none => Except.error (UploadError.keyError "head_uuid")
        | some head_uuid =>
            let source := sourceOf root
            if source = "" then
              Except.ok table
            else
              Except.ok (sessionMerge
                { source := get_source_for_root source
                  record_uuid := head_uuid
                  json := root } table)

end Upload

namespace Upload

/-- The workflow bookkeeping invariant of the spec: `extra_data['recid']`
and `data['control_number']` hold the same value. -/
def recidControlNumberAligned (w : WorkflowObj) : Prop :=
  w.extra_data.recid = w.data.control_number

/-- `send_record_to_hep` issues exactly one request, the one built by
`sendRequest`, whatever the network answers. -/
theorem send_record_to_hep_reqs
    (net : HepRequest → Except HttpResponse HepResponse)
    (obj : WorkflowObj) (pid_type : String) (control_number : Option Int) :
    (send_record_to_hep net obj pid_type control_number).reqs =
      [sendRequest obj pid_type control_number] := by
  unfold send_record_to_hep
  cases h : net (sendRequest obj pid_type control_number) <;> simp [h]

/-- Claim C3: the staleness check returns false when the workflow is not an
update or has no recorded head version, and otherwise reports exactly
whether the loaded head record's live version differs from the recorded
`head_version_id`. -/
theorem C3_is_stale_data_characterization
    (get_record : Option String → InspireRec) (w : WorkflowObj) :
    ((w.extra_data.is_update = false ∨ w.extra_data.head_version_id = none) →
      is_stale_data get_record w = false) ∧
    (∀ v : Int, w.extra_data.is_update = true →
      w.extra_data.head_version_id = some v →
      is_stale_data get_record w =
        ((get_record w.extra_data.head_uuid).version_id != v)) := by
  constructor
  · intro h
    unfold is_stale_data is_stale_data_impl
    rcases hv : w.extra_data.head_version_id with _ | v
    · rfl
    · rcases h with h | h
      · simp [h]
      · rw [h] at hv
        cases hv
  · intro v hu hv
    unfold is_stale_data is_stale_data_impl
    rw [hv, hu]
    rfl

/-- Claim C3, witness: with `is-update` set and `head_version_id = 3`, the
check returns true against a head record at version 4 and false at
version 3; with `is-update` unset it returns false even at version 4. -/
theorem C3_is_stale_data_witness :
    is_stale_data (fun _ => ⟨"u1", ⟨some 1, []⟩, 4⟩)
      ⟨⟨some 1, []⟩, ⟨true, none, some "u1", some 3, none⟩⟩ = true ∧
    is_stale_data (fun _ => ⟨"u1", ⟨some 1, []⟩, 3⟩)
      ⟨⟨some 1, []⟩, ⟨true, none, some "u1", some 3, none⟩⟩ = false ∧
    is_stale_data (fun _ => ⟨"u1", ⟨some 1, []⟩, 4⟩)
      ⟨⟨some 1, []⟩, ⟨false, none, some "u1", some 3, none⟩⟩ = false := by
  refine ⟨?_, ?_, ?_⟩
  · rw [(C3_is_stale_data_characterization
      (fun _ => ⟨"u1", ⟨some 1, []⟩, 4⟩)
      ⟨⟨some 1, []⟩, ⟨true, none, some "u1", some 3, none⟩⟩).2 3 rfl rfl]
    decide
  · rw [(C3_is_stale_data_characterization
      (fun _ => ⟨"u1", ⟨some 1, []⟩, 3⟩)
      ⟨⟨some 1, []⟩, ⟨true, none, some "u1", some 3, none⟩⟩).2 3 rfl rfl]
    decide
  · exact (C3_is_stale_data_characterization
      (fun _ => ⟨"u1", ⟨some 1, []⟩, 4⟩)
      ⟨⟨some 1, []⟩, ⟨false, none, some "u1", some 3, none⟩⟩).1 (Or.inl rfl)

/-- Claim C5, counterexample: a replace call (PUT, `control_number = 5`)
issued while `head_version_id` is `None` carries an empty header map — in
particular no `If-Match` header — so not every replace call carries the
quoted `head_version_id - 1` precondition. -/
theorem C5_counterexample :
    ((send_record_to_hep (fun _ => Except.ok ⟨7, "uuid-7"⟩)
        ⟨⟨some 5, []⟩, ⟨true, none, some "u0", none, none⟩⟩
        "lit" (some 5)).reqs.map (fun r => (r.isPut, r.headers))) =
      [(true, [])] := by decide

/-- Claim C5 (amended): every replace call issued while `head_version_id`
is truthy carries exactly the header `If-Match: "<head_version_id - 1>"`. -/
theorem C5_if_match_header
    (net : HepRequest → Except HttpResponse HepResponse)
    (obj : WorkflowObj) (pid_type : String) (control_number : Option Int)
    (v : Int)
    (hcn : truthyInt control_number = true)
    (hv : obj.extra_data.head_version_id = some v)
    (hvz : v ≠ 0) :
    (send_record_to_hep net obj pid_type control_number).reqs =
      [{ isPut := true
         pid_type := pid_type
         control_number := control_number
         data := obj.data
         headers := [("If-Match", "\"" ++ toString (v - 1) ++ "\"")] }] := by
  rw [send_record_to_hep_reqs]
  unfold sendRequest
  rw [hv, hcn]
  simp [truthyInt, hvz]

/-- Claim C5 (amended), witness: with `head_version_id = 3` the replace
request carries `If-Match: "2"`. -/
theorem C5_if_match_header_witness :
    (send_record_to_hep (fun _ => Except.ok ⟨7, "uuid-7"⟩)
        ⟨⟨some 5, []⟩, ⟨true, none, some "u0", some 3, none⟩⟩
        "lit" (some 5)).reqs =
      [{ isPut := true
         pid_type := "lit"
         control_number := some 5
         data := ⟨some 5, []⟩
         headers := [("If-Match", "\"2\"")] }] := by
  rw [C5_if_match_header (fun _ => Except.ok ⟨7, "uuid-7"⟩)
      ⟨⟨some 5, []⟩, ⟨true, none, some "u0", some 3, none⟩⟩
      "lit" (some 5) 3 (by decide) rfl (by decide)]
  decide

/-- Claim C10: when `head_version_id` is falsy (`None` or `0`) the replace
call is issued with an empty header map (hence no `If-Match`
precondition), and conversely the request built for the call carries a
nonempty header map only when `head_version_id` is truthy. -/
theorem C10_no_if_match_when_falsy
    (net : HepRequest → Except HttpResponse HepResponse)
    (obj : WorkflowObj) (pid_type : String) (control_number : Option Int)
    (hcn : truthyInt control_number = true) :
    (truthyInt obj.extra_data.head_version_id = false →
      (send_record_to_hep net obj pid_type control_number).reqs =
        [{ isPut := true
           pid_type := pid_type
           control_number := control_number
           data := obj.data
           headers := [] }]) ∧
    ((sendRequest obj pid_type control_number).headers ≠ [] →
      truthyInt obj.extra_data.head_version_id = true) := by
  constructor
  · intro hv
    rw [send_record_to_hep_reqs]
    unfold sendRequest
    rw [hcn, hv]
    simp
  · intro hne
    by_contra hv
    apply hne
    rw [Bool.not_eq_true] at hv
    unfold sendRequest
    rw [hcn, hv]
    simp

/-- Claim C10, witness: with `control_number = 5` and
`head_version_id = None` the PUT goes out with no headers, and the
nonempty-header direction holds at a truthy instance. -/
theorem C10_no_if_match_when_falsy_witness :
    (send_record_to_hep (fun _ => Except.ok ⟨7, "uuid-7"⟩)
        ⟨⟨some 5, []⟩, ⟨true, none, some "u0", none, none⟩⟩
        "lit" (some 5)).reqs =
      [{ isPut := true
         pid_type := "lit"
         control_number := some 5
         data := ⟨some 5, []⟩
         headers := [] }] := by
  exact (C10_no_if_match_when_falsy (fun _ => Except.ok ⟨7, "uuid-7"⟩)
      ⟨⟨some 5, []⟩, ⟨true, none, some "u0", none, none⟩⟩
      "lit" (some 5) (by decide)).1 (by decide)

end Upload

namespace Upload

/-- Filtering by a predicate after keeping only its complement yields
nothing. -/
theorem filter_of_filter_not (p : α → Bool) (l : List α) :
    (l.filter (fun a => !p a)).filter p = [] := by
  induction l with
  | nil => rfl
  | cons a l ih =>
      by_cases h : p a <;> simp [List.filter_cons, h, ih]

/-- Claim C8: upserting a snapshot twice for the same `(uuid, source)` key,
first with `J1` and then with `J2`, leaves exactly one stored row for that
key and its content is `J2`. -/
theorem C8_snapshot_upsert_last_write_wins
    (table : List WorkflowsRecordSources) (u s J1 J2 : String) :
    ((sessionMerge ⟨s, u, J2⟩ (sessionMerge ⟨s, u, J1⟩ table)).filter
        (fun r => sameSnapshotKey r ⟨s, u, J2⟩)) = [⟨s, u, J2⟩] := by
  unfold sessionMerge
  rw [List.filter_cons]
  have hself : sameSnapshotKey ⟨s, u, J2⟩ ⟨s, u, J2⟩ = true := by
    simp [sameSnapshotKey]
  rw [List.filter_cons]
  have hdrop : sameSnapshotKey ⟨s, u, J1⟩ ⟨s, u, J2⟩ = true := by
    simp [sameSnapshotKey]
  have hkey : ∀ r : WorkflowsRecordSources,
      sameSnapshotKey r ⟨s, u, J1⟩ = sameSnapshotKey r ⟨s, u, J2⟩ := by
    intro r
    simp [sameSnapshotKey]
  simp only [hself, hdrop, Bool.not_true, Bool.false_eq_true, if_true, if_false,
    reduceIte]
  rw [filter_of_filter_not (fun r => sameSnapshotKey r ⟨s, u, J2⟩)]

/-- The backoff loop stops at the current attempt when it raises an
exception outside the retried set. -/
theorem backoffRetry_stop (run : Nat → StepOutcome) (i remaining : Nat)
    (e : UploadError) (h : (run i).res = Except.error e)
    (hr : retriedError e = false) :
    backoffRetry run i (remaining + 1) = (run i, i + 1) := by
  unfold backoffRetry
  rw [h]
  simp [hr]

/-- The backoff loop stops at the current attempt when it succeeds. -/
theorem backoffRetry_ok (run : Nat → StepOutcome) (i remaining : Nat)
    (h : (run i).res = Except.ok ()) :
    backoffRetry run i (remaining + 1) = (run i, i + 1) := by
  unfold backoffRetry
  rw [h]

/-- The backoff loop retries a `BadGatewayError` while budget remains. -/
theorem backoffRetry_retry (run : Nat → StepOutcome) (i remaining : Nat)
    (h : (run i).res = Except.error UploadError.badGateway)
    (hrem : remaining ≠ 0) :
    backoffRetry run i (remaining + 1) = backoffRetry run (i + 1) remaining := by
  conv_lhs => unfold backoffRetry
  rw [h]
  simp [retriedError, hrem]

/-- With its budget exhausted the backoff loop re-raises the
`BadGatewayError` of its final attempt. -/
theorem backoffRetry_exhausted (run : Nat → StepOutcome) (i : Nat)
    (h : (run i).res = Except.error UploadError.badGateway) :
    backoffRetry run i 1 = (run i, i + 1) := by
  unfold backoffRetry
  rw [h]
  simp [retriedError]

/-- Claim C9: under the remote-API strategy, an update not skipped by the
merger gate (author record or merger enabled) whose payload has no
`control_number` raises `ValueError` on the first attempt, with no remote
request issued. -/
theorem C9_update_requires_control_number (cfg : Config)
    (netSeq : Nat → HepRequest → Except HttpResponse HepResponse)
    (obj : WorkflowObj) (is_authors : Bool)
    (hgate : is_authors = true ∨ cfg.feature_flag_enable_merger = true)
    (hcn : obj.data.control_number = none) :
    store_record_inspirehep_api cfg netSeq obj true is_authors =
      ({ res := Except.error (UploadError.valueError "Control number is missing")
         obj := obj
         reqs := []
         effects := [] }, 1) := by
  have honce : store_record_inspirehep_api_once cfg (netSeq 0) obj true is_authors =
      { res := Except.error (UploadError.valueError "Control number is missing")
        obj := obj
        reqs := []
        effects := [] } := by
    unfold store_record_inspirehep_api_once
    rcases hgate with h | h
    · subst h
      simp [hcn]
    · simp [h, hcn]
  unfold store_record_inspirehep_api backoffMaxTries
  exact (backoffRetry_stop _ 0 4 (UploadError.valueError "Control number is missing")
      (by rw [honce]) (by rfl)).trans (by rw [honce])

/-- Claim C9, witness: a concrete update workflow with the merger flag on
and no payload control number fails with `ValueError` after one attempt
and zero requests. -/
theorem C9_update_requires_control_number_witness :
    store_record_inspirehep_api ⟨true, true⟩ (fun _ _ => Except.ok ⟨1, "u1"⟩)
      ⟨⟨none, []⟩, ⟨true, none, none, none, none⟩⟩ true false =
      ({ res := Except.error (UploadError.valueError "Control number is missing")
         obj := ⟨⟨none, []⟩, ⟨true, none, none, none, none⟩⟩
         reqs := []
         effects := [] }, 1) :=
  C9_update_requires_control_number ⟨true, true⟩ (fun _ _ => Except.ok ⟨1, "u1"⟩)
    ⟨⟨none, []⟩, ⟨true, none, none, none, none⟩⟩ false (Or.inr rfl) rfl

/-- Claim C2: the retry wrapper around `store_record_inspirehep_api`
retries `BadGatewayError` alone with at most 5 attempts: two 502 attempts
followed by a success complete after exactly 3 attempts; five consecutive
502 attempts re-raise after exactly 5 attempts; any other error propagates
after a single attempt; and `create_error` translates a response to
`BadGatewayError` exactly when its status is 502. -/
theorem C2_backoff_retry_policy (cfg : Config)
    (netSeq : Nat → HepRequest → Except HttpResponse HepResponse)
    (obj : WorkflowObj) (is_update is_authors : Bool) (resp : HttpResponse) :
    ((∀ i, i < 2 →
        (store_record_inspirehep_api_once cfg (netSeq i) obj is_update is_authors).res =
          Except.error UploadError.badGateway) →
      (store_record_inspirehep_api_once cfg (netSeq 2) obj is_update is_authors).res =
        Except.ok () →
      store_record_inspirehep_api cfg netSeq obj is_update is_authors =
        (store_record_inspirehep_api_once cfg (netSeq 2) obj is_update is_authors, 3)) ∧
    ((∀ i, i < 5 →
        (store_record_inspirehep_api_once cfg (netSeq i) obj is_update is_authors).res =
          Except.error UploadError.badGateway) →
      store_record_inspirehep_api cfg netSeq obj is_update is_authors =
        (store_record_inspirehep_api_once cfg (netSeq 4) obj is_update is_authors, 5)) ∧
    (∀ e : UploadError,
      (store_record_inspirehep_api_once cfg (netSeq 0) obj is_update is_authors).res =
        Except.error e →
      retriedError e = false →
      store_record_inspirehep_api cfg netSeq obj is_update is_authors =
        (store_record_inspirehep_api_once cfg (netSeq 0) obj is_update is_authors, 1)) ∧
    (create_error resp = UploadError.badGateway ↔ resp.status_code = 502) := by
  refine ⟨?_, ?_, ?_, ?_⟩
  · intro hbad hok
    unfold store_record_inspirehep_api backoffMaxTries
    exact (backoffRetry_retry _ 0 4 (hbad 0 (by norm_num)) (by norm_num)).trans
      ((backoffRetry_retry _ 1 3 (hbad 1 (by norm_num)) (by norm_num)).trans
        (backoffRetry_ok _ 2 2 hok))
  · intro hbad
    unfold store_record_inspirehep_api backoffMaxTries
    exact (backoffRetry_retry _ 0 4 (hbad 0 (by norm_num)) (by norm_num)).trans
      ((backoffRetry_retry _ 1 3 (hbad 1 (by norm_num)) (by norm_num)).trans
        ((backoffRetry_retry _ 2 2 (hbad 2 (by norm_num)) (by norm_num)).trans
          ((backoffRetry_retry _ 3 1 (hbad 3 (by norm_num)) (by norm_num)).trans
            (backoffRetry_exhausted _ 4 (hbad 4 (by norm_num))))))
  · intro e he hre
    unfold store_record_inspirehep_api backoffMaxTries
    exact backoffRetry_stop _ 0 4 e he hre
  · unfold create_error
    split_ifs with h <;> simp [h]

/-- Claim C2, witness: a concrete create call whose network answers 502 on
the first two attempts and succeeds on the third completes successfully
with exactly 3 attempts. -/
theorem C2_backoff_retry_policy_witness :
    (store_record_inspirehep_api ⟨true, true⟩
        (fun i => match i with
          | 0 => fun _ => Except.error ⟨502, none, "bad gateway"⟩
          | 1 => fun _ => Except.error ⟨502, none, "bad gateway"⟩
          | _ => fun _ => Except.ok ⟨9, "uuid-9"⟩)
        ⟨⟨none, []⟩, ⟨false, none, none, none, none⟩⟩ false false).2 = 3 ∧
    (store_record_inspirehep_api ⟨true, true⟩
        (fun i => match i with
          | 0 => fun _ => Except.error ⟨502, none, "bad gateway"⟩
          | 1 => fun _ => Except.error ⟨502, none, "bad gateway"⟩
          | _ => fun _ => Except.ok ⟨9, "uuid-9"⟩)
        ⟨⟨none, []⟩, ⟨false, none, none, none, none⟩⟩ false false).1.res =
      Except.ok () := by
  have h := (C2_backoff_retry_policy ⟨true, true⟩
      (fun i => match i with
        | 0 => fun _ => Except.error ⟨502, none, "bad gateway"⟩
        | 1 => fun _ => Except.error ⟨502, none, "bad gateway"⟩
        | _ => fun _ => Except.ok ⟨9, "uuid-9"⟩)
      ⟨⟨none, []⟩, ⟨false, none, none, none, none⟩⟩ false false
      ⟨502, none, "bad gateway"⟩).1
    (by
      intro i hi
      interval_cases i
      · rfl
      · rfl)
    (by rfl)
  rw [h]
  exact ⟨rfl, rfl⟩

end Upload

namespace Upload

/-- Claim C1: when the server rejects the optimistic-concurrency
precondition of a replace call (the HTTP 412 error response to the PUT),
the call raises the conflict error — in this code the `WorkflowsError`
carrying status 412 and the decoded body, which is how the precondition
mismatch surfaces; no separate exception class exists for it — and the
workflow object, in particular `data['control_number']` and
`extra_data['recid']`, is exactly as before the call. -/
theorem C1_conflict_raises_and_leaves_unchanged
    (net : HepRequest → Except HttpResponse HepResponse)
    (obj : WorkflowObj) (pid_type : String) (control_number : Option Int)
    (r : HttpResponse)
    (hcn : truthyInt control_number = true)
    (hstatus : r.status_code = 412)
    (hnet : net (sendRequest obj pid_type control_number) = Except.error r) :
    (send_record_to_hep net obj pid_type control_number).res =
      Except.error (create_error r) ∧
    create_error r =
      UploadError.workflows 412 ("Error from inspirehep [412]: " ++ errorMessage r) ∧
    (send_record_to_hep net obj pid_type control_number).obj = obj ∧
    (send_record_to_hep net obj pid_type control_number).effects = [] ∧
    (sendRequest obj pid_type control_number).isPut = true := by
  have hsend : send_record_to_hep net obj pid_type control_number =
      { res := Except.error (create_error r)
        obj := obj
        reqs := [sendRequest obj pid_type control_number]
        effects := [] } := by
    simp only [send_record_to_hep]
    rw [hnet]
  refine ⟨by rw [hsend], ?_, by rw [hsend], by rw [hsend], ?_⟩
  · unfold create_error
    rw [hstatus]
    rfl
  · unfold sendRequest
    rw [hcn]
    rfl

/-- Claim C1, witness: a concrete replace call answered with a 412
conflict raises the 412 `WorkflowsError` and leaves the object intact. -/
theorem C1_conflict_witness :
    (send_record_to_hep (fun _ => Except.error ⟨412, some "conflict", "conflict"⟩)
        ⟨⟨some 5, []⟩, ⟨true, some 5, some "u0", some 3, none⟩⟩
        "lit" (some 5)).res =
      Except.error (create_error ⟨412, some "conflict", "conflict"⟩) ∧
    create_error ⟨412, some "conflict", "conflict"⟩ =
      UploadError.workflows 412
        ("Error from inspirehep [412]: " ++ errorMessage ⟨412, some "conflict", "conflict"⟩) ∧
    (send_record_to_hep (fun _ => Except.error ⟨412, some "conflict", "conflict"⟩)
        ⟨⟨some 5, []⟩, ⟨true, some 5, some "u0", some 3, none⟩⟩
        "lit" (some 5)).obj =
      ⟨⟨some 5, []⟩, ⟨true, some 5, some "u0", some 3, none⟩⟩ ∧
    (send_record_to_hep (fun _ => Except.error ⟨412, some "conflict", "conflict"⟩)
        ⟨⟨some 5, []⟩, ⟨true, some 5, some "u0", some 3, none⟩⟩
        "lit" (some 5)).effects = [] ∧
    (sendRequest ⟨⟨some 5, []⟩, ⟨true, some 5, some "u0", some 3, none⟩⟩
        "lit" (some 5)).isPut = true :=
  C1_conflict_raises_and_leaves_unchanged
    (fun _ => Except.error ⟨412, some "conflict", "conflict"⟩)
    ⟨⟨some 5, []⟩, ⟨true, some 5, some "u0", some 3, none⟩⟩
    "lit" (some 5) ⟨412, some "conflict", "conflict"⟩
    (by decide) rfl rfl

/-- Claim C4: after a successful create — strategy A's
`InspireRecord.create` path, or a successful POST through
`send_record_to_hep` — the payload's `control_number`, the workflow's
`extra_data['recid']` and the store's returned control number coincide,
and `extra_data['head_uuid']` holds the created record's UUID. -/
theorem C4_create_stamps_identity (cfg : Config) (db : RecordDb)
    (netSeq : Nat → HepRequest → Except HttpResponse HepResponse)
    (net : HepRequest → Except HttpResponse HepResponse)
    (obj : WorkflowObj) (workflow_data_type pid_type : String)
    (resp : HepResponse) (cn : Int) :
    (cfg.feature_flag_enable_rest_record_management = false →
      obj.extra_data.is_update = false →
      (db.create obj.data).json.control_number = some cn →
      (store_record cfg db netSeq obj workflow_data_type).res = Except.ok () ∧
      (store_record cfg db netSeq obj workflow_data_type).obj.data.control_number =
        some cn ∧
      (store_record cfg db netSeq obj workflow_data_type).obj.extra_data.recid =
        some cn ∧
      (store_record cfg db netSeq obj workflow_data_type).obj.extra_data.head_uuid =
        some (db.create obj.data).id) ∧
    (obj.data.control_number = none →
      net (sendRequest obj pid_type obj.data.control_number) = Except.ok resp →
      (send_record_to_hep net obj pid_type obj.data.control_number).res =
        Except.ok () ∧
      (send_record_to_hep net obj pid_type obj.data.control_number).obj.data.control_number =
        some resp.control_number ∧
      (send_record_to_hep net obj pid_type obj.data.control_number).obj.extra_data.recid =
        some resp.control_number ∧
      (send_record_to_hep net obj pid_type obj.data.control_number).obj.extra_data.head_uuid =
        some resp.uuid) := by
  constructor
  · intro hrest hupd hcreate
    have h : store_record cfg db netSeq obj workflow_data_type =
        { res := Except.ok ()
          obj :=
            { data := { obj.data with control_number := some cn }
              extra_data :=
                { obj.extra_data with
                    recid := some cn
                    head_uuid := some (db.create obj.data).id } }
          reqs := []
          effects := [StoreEffect.commitRecord (db.create obj.data),
            StoreEffect.saveWorkflow
              { data := { obj.data with control_number := some cn }
                extra_data :=
                  { obj.extra_data with
                      recid := some cn
                      head_uuid := some (db.create obj.data).id } }] } := by
      simp only [store_record, hrest, hupd]
      rw [hcreate]
      simp
    rw [h]
    exact ⟨rfl, rfl, rfl, rfl⟩
  · intro hcn0 hnet
    rw [hcn0] at hnet ⊢
    have h : send_record_to_hep net obj pid_type none =
        { res := Except.ok ()
          obj :=
            { data := { obj.data with control_number := some resp.control_number }
              extra_data :=
                { obj.extra_data with
                    recid := some resp.control_number
                    head_uuid := some resp.uuid } }
          reqs := [sendRequest obj pid_type none]
          effects := [StoreEffect.saveWorkflow
            { data := { obj.data with control_number := some resp.control_number }
              extra_data :=
                { obj.extra_data with
                    recid := some resp.control_number
                    head_uuid := some resp.uuid } }] } := by
      simp only [send_record_to_hep]
      rw [hnet]
      simp [truthyInt]
    rw [h]
    exact ⟨rfl, rfl, rfl, rfl⟩

/-- Claim C4, witness: concrete successful creates under both strategies
stamp the same control number onto payload and `recid` and record the new
UUID in `head_uuid`. -/
theorem C4_create_stamps_identity_witness :
    ((store_record ⟨false, false⟩
        ⟨fun _ => ⟨"u-head", ⟨some 1, []⟩, 1⟩, fun p => ⟨"u-new", ⟨some 42, p.fields⟩, 1⟩⟩
        (fun _ _ => Except.ok ⟨9, "uuid-9"⟩)
        ⟨⟨none, []⟩, ⟨false, none, none, none, none⟩⟩ "hep").obj.data.control_number =
      some 42 ∧
    (store_record ⟨false, false⟩
        ⟨fun _ => ⟨"u-head", ⟨some 1, []⟩, 1⟩, fun p => ⟨"u-new", ⟨some 42, p.fields⟩, 1⟩⟩
        (fun _ _ => Except.ok ⟨9, "uuid-9"⟩)
        ⟨⟨none, []⟩, ⟨false, none, none, none, none⟩⟩ "hep").obj.extra_data.recid =
      some 42 ∧
    (store_record ⟨false, false⟩
        ⟨fun _ => ⟨"u-head", ⟨some 1, []⟩, 1⟩, fun p => ⟨"u-new", ⟨some 42, p.fields⟩, 1⟩⟩
        (fun _ _ => Except.ok ⟨9, "uuid-9"⟩)
        ⟨⟨none, []⟩, ⟨false, none, none, none, none⟩⟩ "hep").obj.extra_data.head_uuid =
      some "u-new") ∧
    ((send_record_to_hep (fun _ => Except.ok ⟨7, "uuid-7"⟩)
        ⟨⟨none, []⟩, ⟨false, none, none, none, none⟩⟩ "lit" none).obj.data.control_number =
      some 7 ∧
    (send_record_to_hep (fun _ => Except.ok ⟨7, "uuid-7"⟩)
        ⟨⟨none, []⟩, ⟨false, none, none, none, none⟩⟩ "lit" none).obj.extra_data.recid =
      some 7 ∧
    (send_record_to_hep (fun _ => Except.ok ⟨7, "uuid-7"⟩)
        ⟨⟨none, []⟩, ⟨false, none, none, none, none⟩⟩ "lit" none).obj.extra_data.head_uuid =
      some "uuid-7") := by
  have h := C4_create_stamps_identity ⟨false, false⟩
    ⟨fun _ => ⟨"u-head", ⟨some 1, []⟩, 1⟩, fun p => ⟨"u-new", ⟨some 42, p.fields⟩, 1⟩⟩
    (fun _ _ => Except.ok ⟨9, "uuid-9"⟩)
    (fun _ => Except.ok ⟨7, "uuid-7"⟩)
    ⟨⟨none, []⟩, ⟨false, none, none, none, none⟩⟩ "hep" "lit" ⟨7, "uuid-7"⟩ 42
  obtain ⟨hA, hB⟩ := h
  obtain ⟨-, a1, a2, a3⟩ := hA rfl rfl rfl
  obtain ⟨-, b1, b2, b3⟩ := hB rfl rfl
  exact ⟨⟨a1, a2, a3⟩, b1, b2, b3⟩

/-- Claim C7: an update-type workflow of non-author type with the merger
feature flag disabled makes the commit step a logged no-op under either
storage strategy: it returns without raising, without any store effect or
remote request, and with the workflow object untouched. -/
theorem C7_merger_disabled_update_is_noop (cfg : Config) (db : RecordDb)
    (netSeq : Nat → HepRequest → Except HttpResponse HepResponse)
    (obj : WorkflowObj) (workflow_data_type : String)
    (hupd : obj.extra_data.is_update = true)
    (hna : workflow_data_type ≠ "authors")
    (hmerg : cfg.feature_flag_enable_merger = false) :
    store_record cfg db netSeq obj workflow_data_type =
      { res := Except.ok (), obj := obj, reqs := [], effects := [] } := by
  have hA : (workflow_data_type == "authors") = false := beq_eq_false_iff_ne.mpr hna
  cases hrest : cfg.feature_flag_enable_rest_record_management
  · simp only [store_record, hrest, hupd, hA, hmerg]
    rfl
  · have honce : store_record_inspirehep_api_once cfg (netSeq 0) obj true
        (workflow_data_type == "authors") =
        { res := Except.ok (), obj := obj, reqs := [], effects := [] } := by
      unfold store_record_inspirehep_api_once
      rw [hA, hmerg]
      rfl
    simp only [store_record, hrest, hupd]
    unfold store_record_inspirehep_api
    rw [show backoffRetry
        (fun i => store_record_inspirehep_api_once cfg (netSeq i) obj true
          (workflow_data_type == "authors")) 0 backoffMaxTries =
        (store_record_inspirehep_api_once cfg (netSeq 0) obj true
          (workflow_data_type == "authors"), 1) from
      backoffRetry_ok _ 0 4 (by rw [honce])]
    rw [honce]
    simp

/-- Claim C7, witness: a concrete non-author update with the merger flag
off is returned unchanged with no effects. -/
theorem C7_merger_disabled_update_is_noop_witness :
    store_record ⟨false, false⟩
      ⟨fun _ => ⟨"u-head", ⟨some 1, []⟩, 1⟩, fun p => ⟨"u-new", ⟨some 42, p.fields⟩, 1⟩⟩
      (fun _ _ => Except.ok ⟨9, "uuid-9"⟩)
      ⟨⟨some 5, []⟩, ⟨true, some 5, some "u0", some 3, none⟩⟩ "hep" =
      { res := Except.ok ()
        obj := ⟨⟨some 5, []⟩, ⟨true, some 5, some "u0", some 3, none⟩⟩
        reqs := []
        effects := [] } :=
  C7_merger_disabled_update_is_noop ⟨false, false⟩
    ⟨fun _ => ⟨"u-head", ⟨some 1, []⟩, 1⟩, fun p => ⟨"u-new", ⟨some 42, p.fields⟩, 1⟩⟩
    (fun _ _ => Except.ok ⟨9, "uuid-9"⟩)
    ⟨⟨some 5, []⟩, ⟨true, some 5, some "u0", some 3, none⟩⟩ "hep"
    rfl (by decide) rfl

end Upload

namespace Upload

/-- `send_record_to_hep` either leaves the workflow object untouched (the
error path) or leaves `recid` aligned with the payload control number. -/
theorem send_record_to_hep_obj_cases
    (net : HepRequest → Except HttpResponse HepResponse)
    (obj : WorkflowObj) (pid_type : String) (control_number : Option Int) :
    (send_record_to_hep net obj pid_type control_number).obj = obj ∨
    recidControlNumberAligned (send_record_to_hep net obj pid_type control_number).obj := by
  unfold send_record_to_hep
  cases h : net (sendRequest obj pid_type control_number)
  · left
    simp [h]
  · right
    simp [h, recidControlNumberAligned]

/-- A single `store_record_inspirehep_api` attempt either leaves the
workflow object untouched or aligns `recid` with the control number. -/
theorem store_api_once_obj_cases (cfg : Config)
    (net : HepRequest → Except HttpResponse HepResponse)
    (obj : WorkflowObj) (is_update is_authors : Bool) :
    (store_record_inspirehep_api_once cfg net obj is_update is_authors).obj = obj ∨
    recidControlNumberAligned
      (store_record_inspirehep_api_once cfg net obj is_update is_authors).obj := by
  simp only [store_record_inspirehep_api_once]
  by_cases h1 : (is_update && !is_authors && !cfg.feature_flag_enable_merger) = true
  · rw [if_pos h1]
    left
    rfl
  · rw [if_neg h1]
    by_cases h2 : (is_update && decide (obj.data.control_number = none)) = true
    · rw [if_pos h2]
      left
      rfl
    · rw [if_neg h2]
      exact send_record_to_hep_obj_cases net obj _ obj.data.control_number

/-- The backoff loop returns the outcome of one of its attempts. -/
theorem backoffRetry_result (run : Nat → StepOutcome) :
    ∀ remaining i, ∃ j, (backoffRetry run i remaining).1 = run j := by
  intro remaining
  induction remaining with
  | zero =>
      intro i
      exact ⟨i, rfl⟩
  | succ r ih =>
      intro i
      unfold backoffRetry
      cases h : (run i).res with
      | ok a => exact ⟨i, rfl⟩
      | error e =>
          show ∃ j,
            (if (retriedError e && r != 0) = true then backoffRetry run (i + 1) r
              else (run i, i + 1)).1 = run j
          by_cases hc : (retriedError e && r != 0) = true
          · rw [if_pos hc]
            exact ih (i + 1)
          · rw [if_neg hc]
            exact ⟨i, rfl⟩

/-- `store_record` (either strategy) either leaves the workflow object
untouched or aligns `recid` with the payload control number. -/
theorem store_record_obj_cases (cfg : Config) (db : RecordDb)
    (netSeq : Nat → HepRequest → Except HttpResponse HepResponse)
    (obj : WorkflowObj) (workflow_data_type : String) :
    (store_record cfg db netSeq obj workflow_data_type).obj = obj ∨
    recidControlNumberAligned (store_record cfg db netSeq obj workflow_data_type).obj := by
  cases hrest : cfg.feature_flag_enable_rest_record_management with
  | true =>
      have hB : store_record cfg db netSeq obj workflow_data_type =
          (store_record_inspirehep_api cfg netSeq obj obj.extra_data.is_update
            (workflow_data_type == "authors")).1 := by
        simp [store_record, hrest]
      rw [hB]
      unfold store_record_inspirehep_api
      obtain ⟨j, hj⟩ := backoffRetry_result
        (fun i => store_record_inspirehep_api_once cfg (netSeq i) obj
          obj.extra_data.is_update (workflow_data_type == "authors"))
        backoffMaxTries 0
      rw [hj]
      exact store_api_once_obj_cases cfg (netSeq j) obj
        obj.extra_data.is_update (workflow_data_type == "authors")
  | false =>
      cases hupd : obj.extra_data.is_update with
      | false =>
          cases hcn : (db.create obj.data).json.control_number with
          | none =>
              left
              simp [store_record, hrest, hupd, hcn]
          | some cn =>
              right
              simp [store_record, hrest, hupd, hcn, recidControlNumberAligned]
      | true =>
          by_cases hskip :
              (!(workflow_data_type == "authors") && !cfg.feature_flag_enable_merger) = true
          · left
            simp [store_record, hrest, hupd, hskip]
          · cases huu : obj.extra_data.head_uuid with
            | none =>
                left
                simp [store_record, hrest, hupd, hskip, huu]
            | some hu =>
                cases hcn : (db.get_record (some hu)).json.control_number with
                | none =>
                    left
                    simp [store_record, hrest, hupd, hskip, huu, hcn]
                | some cn =>
                    right
                    simp [store_record, hrest, hupd, hskip, huu, hcn,
                      recidControlNumberAligned]

/-- Claim C6: every storage operation — `store_record` under either
strategy, and `send_record_to_hep` — either leaves the workflow object
untouched or establishes `extra_data['recid'] = data['control_number']`;
consequently once the two are equal every such step preserves the
equality. -/
theorem C6_recid_control_number_alignment (cfg : Config) (db : RecordDb)
    (netSeq : Nat → HepRequest → Except HttpResponse HepResponse)
    (net : HepRequest → Except HttpResponse HepResponse)
    (obj : WorkflowObj) (workflow_data_type pid_type : String)
    (control_number : Option Int) :
    ((store_record cfg db netSeq obj workflow_data_type).obj = obj ∨
      recidControlNumberAligned (store_record cfg db netSeq obj workflow_data_type).obj) ∧
    (recidControlNumberAligned obj →
      recidControlNumberAligned (store_record cfg db netSeq obj workflow_data_type).obj) ∧
    ((send_record_to_hep net obj pid_type control_number).obj = obj ∨
      recidControlNumberAligned (send_record_to_hep net obj pid_type control_number).obj) ∧
    (recidControlNumberAligned obj →
      recidControlNumberAligned (send_record_to_hep net obj pid_type control_number).obj) := by
  refine ⟨store_record_obj_cases cfg db netSeq obj workflow_data_type, ?_,
    send_record_to_hep_obj_cases net obj pid_type control_number, ?_⟩
  · intro hal
    rcases store_record_obj_cases cfg db netSeq obj workflow_data_type with h | h
    · rw [h]
      exact hal
    · exact h
  · intro hal
    rcases send_record_to_hep_obj_cases net obj pid_type control_number with h | h
    · rw [h]
      exact hal
    · exact h

/-- Claim C6, witness: on a concrete workflow whose `recid` and payload
control number agree, both a full `store_record` commit and a direct
`send_record_to_hep` call keep them equal. -/
theorem C6_recid_control_number_alignment_witness :
    recidControlNumberAligned
      (store_record ⟨false, false⟩
        ⟨fun _ => ⟨"u-head", ⟨some 1, []⟩, 1⟩, fun p => ⟨"u-new", ⟨some 42, p.fields⟩, 1⟩⟩
        (fun _ _ => Except.ok ⟨9, "uuid-9"⟩)
        ⟨⟨none, []⟩, ⟨false, none, none, none, none⟩⟩ "hep").obj ∧
    recidControlNumberAligned
      (send_record_to_hep (fun _ => Except.ok ⟨7, "uuid-7"⟩)
        ⟨⟨none, []⟩, ⟨false, none, none, none, none⟩⟩ "lit" none).obj := by
  have h := C6_recid_control_number_alignment ⟨false, false⟩
    ⟨fun _ => ⟨"u-head", ⟨some 1, []⟩, 1⟩, fun p => ⟨"u-new", ⟨some 42, p.fields⟩, 1⟩⟩
    (fun _ _ => Except.ok ⟨9, "uuid-9"⟩)
    (fun _ => Except.ok ⟨7, "uuid-7"⟩)
    ⟨⟨none, []⟩, ⟨false, none, none, none, none⟩⟩ "hep" "lit" none
  exact ⟨h.2.1 rfl, h.2.2.2 rfl⟩

end Upload
